import Mathlib

/-!
# KitchZero backend — verification of the auth / tenant-isolation core

Shallow embedding of the authentication, session-lifecycle and
tenant-isolation logic of the kitchzero backend (TypeScript sources:
`src/services/AuthService.ts`, `src/services/UserService.ts` (unnamed
part_011), the auth middleware (unnamed part_008), validation schemas
(unnamed part_008), `src/utils/jwt.ts`, `src/server.ts`,
`TenantService` (unnamed part_012), config defaults (unnamed part_009)).

Database rows become Lean structures, the database becomes lists of rows,
SQL `UPDATE ... WHERE` becomes a `List.map` guarded by the `WHERE`
predicate, SQL `SELECT ... WHERE ... ` row fetch becomes `List.find?`,
timestamps are `Nat` milliseconds passed explicitly, and each service
method becomes a function `Db → ... → Db × Except Error Result`
(the `db.transaction` wrapper is reflected by the fact that an erroring
run returns the input `Db` unchanged).

The two cryptographic collaborators (bcrypt, jsonwebtoken), which the
code treats as black boxes, are modelled as injective tagging functions:
`bcryptHash` prefixes the password, `bcryptCompare p h` holds iff
`h = bcryptHash p`; a signed refresh token is a string carrying a
`"refresh."` tag, and signature verification checks the tag.
`crypto.randomBytes` is modelled by passing the random bytes explicitly.
-/

namespace KitchZero

/-- Security configuration (unnamed part_009, `config.security`):
`maxLoginAttempts` defaults to 5, `lockoutTime` is in minutes and
defaults to 30. -/
structure SecurityConfig where
  maxLoginAttempts : Nat
  lockoutTime : Nat
  deriving Repr, DecidableEq

/-- The defaults from unnamed part_009 lines 132-133:
`MAX_LOGIN_ATTEMPTS || '5'`, `LOCKOUT_TIME || '30'`. -/
def defaultSecurity : SecurityConfig :=
  { maxLoginAttempts := 5, lockoutTime := 30 }

/-- A row of the `users` table, with the columns the embedded code reads
or writes.  Timestamps are `Nat` milliseconds; nullable columns are
`Option`. -/
structure UserRow where
  id : String
  username : String
  email : Option String
  password : String
  role : String
  tenant_id : Option String
  branch_id : Option String
  is_active : Bool
  must_change_password : Bool
  failed_login_attempts : Nat
  locked_until : Option Nat
  last_login_at : Option Nat
  deleted_at : Option Nat
  deriving Repr, DecidableEq

/-- A row of the `refresh_tokens` table. -/
structure RefreshTokenRow where
  user_id : String
  token : String
  expires_at : Nat
  is_revoked : Bool
  deriving Repr, DecidableEq

/-- A row of the `tenants` table (the columns the embedded code touches). -/
structure TenantRow where
  id : String
  name : String
  slug : String
  is_active : Bool
  subscription_status : String
  deleted_at : Option Nat
  deriving Repr, DecidableEq

/-- A row of the `branches` table (the columns the embedded code touches). -/
structure BranchRow where
  id : String
  tenant_id : String
  is_active : Bool
  deleted_at : Option Nat
  deriving Repr, DecidableEq

/-- The database: one list per table, in row order (SQL `rows[0]` is the
first matching element). -/
structure Db where
  users : List UserRow
  refresh_tokens : List RefreshTokenRow
  tenants : List TenantRow
  branches : List BranchRow
  deriving Repr, DecidableEq

/-- Model of the bcrypt hashing black box: an injective tag.  The code
only ever calls `bcrypt.hash` and `bcrypt.compare`, so any injection with
a recognisable compare works as the black-box contract. -/
def bcryptHash (password : String) : String := "$2b$12$" ++ password

/-- Model of `bcrypt.compare(password, hash)`. -/
def bcryptCompare (password storedHash : String) : Bool :=
  storedHash == bcryptHash password

/-- JWT claims payload built by `AuthService` (jwt.ts `JWTPayload` minus
timing fields). -/
structure TokenPayload where
  userId : String
  username : String
  role : String
  tenantId : Option String
  branchId : Option String
  deriving Repr, DecidableEq

/-- Model of `JWTUtils.generateAccessToken`: an opaque signed string; the
embedded code never parses access tokens, only mints them. -/
def generateAccessToken (p : TokenPayload) : String :=
  "access." ++ p.userId

/-- Model of `JWTUtils.generateRefreshToken`: a signed string carrying a
recognisable signature tag. -/
def generateRefreshToken (p : TokenPayload) : String :=
  "refresh." ++ p.userId

/-- Model of `JWTUtils.verifyRefreshToken` succeeding: the string carries
a valid signature (was minted by `generateRefreshToken`).  The refresh
endpoint discards the decoded payload and trusts only the server-side
record, so only success/failure matters. -/
def verifyRefreshSignature (token : String) : Bool :=
  "refresh.".isPrefixOf token

/-- JavaScript truthiness of a nullable string (`undefined`/`null` and
`""` are falsy). -/
def jsTruthy : Option String → Bool
  | none => false
  | some s => s ≠ ""

/-- JavaScript `a || b` over nullable strings (first truthy wins,
otherwise the last value). -/
def jsOr (a b : Option String) : Option String :=
  if jsTruthy a then a else b

/-- `SELECT ... FROM users WHERE username = $1 OR email = $1` —
first matching row. -/
def findUserByIdentifier (db : Db) (identifier : String) : Option UserRow :=
  db.users.find? (fun u => u.username == identifier || u.email == some identifier)

/-- `SELECT ... FROM users WHERE id = $1` — first matching row. -/
def findUserById (db : Db) (id : String) : Option UserRow :=
  db.users.find? (fun u => u.id == id)

/-- `UPDATE users SET ... WHERE id = $1`: apply `f` to every row whose
`id` matches. -/
def updateUsersById (db : Db) (id : String) (f : UserRow → UserRow) : Db :=
  { db with users := db.users.map (fun u => if u.id == id then f u else u) }

/-- `SELECT ... FROM refresh_tokens WHERE token = $1` — first matching
row. -/
def findRefreshTokenRow (db : Db) (token : String) : Option RefreshTokenRow :=
  db.refresh_tokens.find? (fun r => r.token == token)

/-- `UPDATE refresh_tokens SET is_revoked = true WHERE user_id = $1`
(the revoke-all used by password/credential change and reset). -/
def revokeAllRefreshTokens (db : Db) (userId : String) : Db :=
  { db with refresh_tokens :=
      db.refresh_tokens.map (fun r =>
        if r.user_id == userId then { r with is_revoked := true } else r) }

/-- `INSERT INTO refresh_tokens (user_id, token, expires_at)` (new rows
are appended; `is_revoked` defaults to false). -/
def insertRefreshToken (db : Db) (userId token : String) (expiresAt : Nat) : Db :=
  { db with refresh_tokens :=
      db.refresh_tokens ++ [{ user_id := userId, token := token,
                              expires_at := expiresAt, is_revoked := false }] }

/-- `SELECT ... FROM tenants WHERE id = $1` (no soft-delete filter; used
by the authenticate middleware's LEFT JOIN, whose join condition is only
`u.tenant_id = t.id`). -/
def findTenantById (db : Db) (id : String) : Option TenantRow :=
  db.tenants.find? (fun t => t.id == id)

/-! ## AuthService.login (src/services/AuthService.ts lines 23-145) -/

/-- `user.locked_until && new Date() < new Date(user.locked_until)` —
the lock is set and strictly in the future. -/
def lockActive (lockedUntil : Option Nat) (now : Nat) : Bool :=
  match lockedUntil with
  | none => false
  | some t => now < t

/-- The typed login errors thrown by `AuthService.login`
(`'Invalid credentials'`, `'Account is inactive'`,
`'Account is locked due to failed login attempts'`). -/
inductive AuthError where
  | invalidCredentials
  | accountInactive
  | accountLocked
  deriving Repr, DecidableEq

/-- The principal view returned inside `LoginResult`. -/
structure LoginUserView where
  id : String
  username : String
  email : Option String
  role : String
  tenantId : Option String
  branchId : Option String
  mustChangePassword : Bool
  deriving Repr, DecidableEq

/-- `LoginResult` of `AuthService.login`. -/
structure LoginResult where
  user : LoginUserView
  accessToken : String
  refreshToken : String
  expiresIn : Nat
  deriving Repr, DecidableEq

/-- `AuthService.login` (AuthService.ts lines 23-145), with the current
time `now` (milliseconds) passed explicitly.  Returns the updated
database together with the result; an erroring run's state change (the
failed-attempt UPDATE) is exactly the one the source commits before
throwing. -/
def login (cfg : SecurityConfig) (db : Db) (now : Nat)
    (username password : String) : Db × Except AuthError LoginResult :=
  match findUserByIdentifier db username with
  | none => (db, .error .invalidCredentials)
  | some user =>
    if user.is_active = false then
      (db, .error .accountInactive)
    else if lockActive user.locked_until now then
      (db, .error .accountLocked)
    else if bcryptCompare password user.password = false then
      let newFailedAttempts := user.failed_login_attempts + 1
      let lockUntil : Option Nat :=
        if cfg.maxLoginAttempts ≤ newFailedAttempts then
          some (now + cfg.lockoutTime * 60 * 1000)
        else none
      (updateUsersById db user.id (fun u =>
        { u with failed_login_attempts := newFailedAttempts,
                 locked_until := lockUntil }),
       .error .invalidCredentials)
    else
      let db1 := updateUsersById db user.id (fun u =>
        { u with failed_login_attempts := 0, locked_until := none,
                 last_login_at := some now })
      let payload : TokenPayload :=
        { userId := user.id, username := user.username, role := user.role,
          tenantId := user.tenant_id, branchId := user.branch_id }
      let accessToken := generateAccessToken payload
      let refreshToken := generateRefreshToken payload
      let db2 := insertRefreshToken db1 user.id refreshToken
        (now + 7 * 24 * 60 * 60 * 1000)
      (db2,
       .ok { user := { id := user.id, username := user.username,
                       email := user.email, role := user.role,
                       tenantId := user.tenant_id, branchId := user.branch_id,
                       mustChangePassword := user.must_change_password },
             accessToken := accessToken, refreshToken := refreshToken,
             expiresIn := 15 * 60 })

/-! ## AuthService.refreshToken (src/services/AuthService.ts lines 147-202) -/

/-- The typed errors thrown by `AuthService.refreshToken`
(`'Invalid refresh token'` both for signature failure and for
missing/revoked server-side record, `'Refresh token expired'`,
`'User not found or inactive'`). -/
inductive RefreshError where
  | invalidRefreshToken
  | refreshTokenExpired
  | userNotFoundOrInactive
  deriving Repr, DecidableEq

/-- Result of `AuthService.refreshToken`. -/
structure RefreshResult where
  accessToken : String
  expiresIn : Nat
  deriving Repr, DecidableEq

/-- `AuthService.refreshToken` (AuthService.ts lines 147-202).  The
decoded JWT payload is discarded by the source (the user is re-read from
the token record's `user_id`), so only the success of the signature
check matters. -/
def refreshAccessToken (db : Db) (now : Nat) (refreshTokenValue : String) :
    Except RefreshError RefreshResult :=
  if verifyRefreshSignature refreshTokenValue = false then
    .error .invalidRefreshToken
  else
    match findRefreshTokenRow db refreshTokenValue with
    | none => .error .invalidRefreshToken
    | some tokenRecord =>
      if tokenRecord.is_revoked then .error .invalidRefreshToken
      else if tokenRecord.expires_at < now then .error .refreshTokenExpired
      else
        match findUserById db tokenRecord.user_id with
        | none => .error .userNotFoundOrInactive
        | some user =>
          if user.is_active = false then .error .userNotFoundOrInactive
          else
            .ok { accessToken := generateAccessToken
                    { userId := user.id, username := user.username,
                      role := user.role, tenantId := user.tenant_id,
                      branchId := user.branch_id },
                  expiresIn := 15 * 60 }

/-! ## Auth middleware (unnamed part_008, second `AuthMiddleware`,
lines 371-614: the enhanced version with tenant context) -/

/-- The view of the principal the authenticate middleware attaches to the
request (`req.user`). -/
structure AuthUser where
  id : String
  username : String
  email : Option String
  role : String
  tenantId : Option String
  branchId : Option String
  deriving Repr, DecidableEq

/-- Outcome of a middleware: pass control on (`next()`) or answer with an
HTTP status and message. -/
inductive MwOutcome where
  | next
  | respond (status : Nat) (message : String)
  deriving Repr, DecidableEq

/-- The DB-backed portion of `AuthMiddleware.authenticate` (unnamed
part_008 lines 373-481), taken after `JWTUtils.verifyAccessToken`
succeeded with `payload.userId = userId`: the joined user+tenant fetch
(`WHERE u.id = $1 AND u.deleted_at IS NULL`, `LEFT JOIN tenants t ON
u.tenant_id = t.id` — the join has no tenant soft-delete filter) and the
activity / tenant-status checks.  Returns the attached `req.user` or the
401 response. -/
def authenticateUser (db : Db) (userId : String) : Except MwOutcome AuthUser :=
  match db.users.find? (fun u => u.id == userId && u.deleted_at == none) with
  | none => .error (.respond 401 "User not found")
  | some user =>
    if user.is_active = false then
      .error (.respond 401 "Account is inactive")
    else
      -- LEFT JOIN: tenant columns are NULL when the user has no tenant
      -- or the tenant id matches no row.
      let joinedTenant := match user.tenant_id with
        | none => none
        | some tid => findTenantById db tid
      let tenantActive : Bool := match joinedTenant with
        | none => false          -- SQL NULL is falsy in `!user.tenant_active`
        | some t => t.is_active
      let subscriptionStatus : Option String := joinedTenant.map
        (fun t => t.subscription_status)
      if user.role ≠ "super_admin" then
        if jsTruthy user.tenant_id = false then
          .error (.respond 401 "No tenant associated with user")
        else if tenantActive = false then
          .error (.respond 401 "Tenant account is inactive")
        else if subscriptionStatus == some "cancelled" ||
                 subscriptionStatus == some "suspended" then
          .error (.respond 401 "Tenant subscription is not active")
        else
          .ok { id := user.id, username := user.username, email := user.email,
                role := user.role, tenantId := user.tenant_id,
                branchId := user.branch_id }
      else
        .ok { id := user.id, username := user.username, email := user.email,
              role := user.role, tenantId := user.tenant_id,
              branchId := user.branch_id }

/-- The request data `enforceTenantIsolation` inspects: the authenticated
principal (if any) and the `tenantId` found in path parameters, body and
query string (`none` when the key is absent). -/
structure TenantIsolationRequest where
  user : Option AuthUser
  paramsTenantId : Option String
  bodyTenantId : Option String
  queryTenantId : Option String
  deriving Repr, DecidableEq

/-- `req.params.tenantId || req.body.tenantId || req.query.tenantId`
(JavaScript `||`: first truthy wins). -/
def requestTenantId (r : TenantIsolationRequest) : Option String :=
  jsOr r.paramsTenantId (jsOr r.bodyTenantId r.queryTenantId)

/-- `AuthMiddleware.enforceTenantIsolation` (unnamed part_008 lines
516-560, the strict version): 401 when unauthenticated; super admins
pass; other roles need a tenant context and are cut off with 403 when a
declared request tenant id differs from their own. -/
def enforceTenantIsolation (r : TenantIsolationRequest) : MwOutcome :=
  match r.user with
  | none => .respond 401 "Authentication required"
  | some user =>
    if user.role == "super_admin" then .next
    else if jsTruthy user.tenantId = false then
      .respond 403 "No tenant context available"
    else
      let rt := requestTenantId r
      if jsTruthy rt && !(user.tenantId == rt) then
        .respond 403 "Access denied: Cannot access other tenant's data"
      else .next

/-! ## JWTUtils password / token helpers (src/utils/jwt.ts) -/

/-- The 16 lowercase hexadecimal digits used by node's
`Buffer.toString('hex')`. -/
def hexChars : List Char := "0123456789abcdef".data

/-- One hexadecimal digit character (`n < 16` in every use). -/
def hexDigit (n : Nat) : Char := hexChars.getD n '0'

/-- `Buffer.toString('hex')`: each byte becomes two lowercase hex
digits. -/
def hexEncode (bytes : List Nat) : String :=
  ⟨(bytes.map (fun b => [hexDigit (b / 16), hexDigit (b % 16)])).flatten⟩

/-- `JWTUtils.generateSecureToken(length)` (jwt.ts lines 75-78):
`crypto.randomBytes(length).toString('hex')`, with the random bytes
passed explicitly. -/
def generateSecureToken (randomBytes : List Nat) : String :=
  hexEncode randomBytes

/-- The punctuation class of jwt.ts's special-character regex
`[!@#$%^&*()_+\-=\[\]{};':"\\|,.<>\/?]`. -/
def isSpecialChar (c : Char) : Bool :=
  c ∈ juxtSpecials
where
  juxtSpecials : List Char :=
    ['!', '@', '#', '$', '%', '^', '&', '*', '(', ')', '_', '+', '-', '=',
     '[', ']', '{', '}', ';', '\'', ':', '"', '\\', '|', ',', '.', '<', '>',
     '/', '?']

/-- Regex character class `[A-Z]`. -/
def isUpperAZ (c : Char) : Bool := 'A' ≤ c && c ≤ 'Z'

/-- Regex character class `[a-z]`. -/
def isLowerAZ (c : Char) : Bool := 'a' ≤ c && c ≤ 'z'

/-- Regex character class `[0-9]`. -/
def isDigit09 (c : Char) : Bool := '0' ≤ c && c ≤ '9'

/-- Result of `JWTUtils.validatePasswordStrength`. -/
structure PasswordValidation where
  isValid : Bool
  errors : List String
  deriving Repr, DecidableEq

/-- `JWTUtils.validatePasswordStrength` (jwt.ts lines 81-108): collects
one error per failed rule; valid iff no errors. -/
def validatePasswordStrength (password : String) : PasswordValidation :=
  let errors :=
    (if password.length < 12 then
       ["Password must be at least 12 characters long"] else []) ++
    (if password.data.any isUpperAZ = false then
       ["Password must contain at least one uppercase letter"] else []) ++
    (if password.data.any isLowerAZ = false then
       ["Password must contain at least one lowercase letter"] else []) ++
    (if password.data.any isDigit09 = false then
       ["Password must contain at least one number"] else []) ++
    (if password.data.any isSpecialChar = false then
       ["Password must contain at least one special character"] else [])
  { isValid := errors.isEmpty, errors := errors }

/-! ## AuthService.changePassword / changeCredentials
(src/services/AuthService.ts lines 204-314) -/

/-- `AuthService.changePassword` (AuthService.ts lines 269-314), a
`db.transaction`: an error leaves the database untouched. -/
def changePassword (db : Db) (userId currentPassword newPassword : String) :
    Db × Except String Unit :=
  match findUserById db userId with
  | none => (db, .error "User not found")
  | some user =>
    if bcryptCompare currentPassword user.password = false then
      (db, .error "Current password is incorrect")
    else if (validatePasswordStrength newPassword).isValid = false then
      (db, .error "Password validation failed")
    else
      let db1 := updateUsersById db userId (fun u =>
        { u with password := bcryptHash newPassword,
                 must_change_password := false })
      (revokeAllRefreshTokens db1 userId, .ok ())

/-- `AuthService.changeCredentials` (AuthService.ts lines 204-267), a
`db.transaction`: current password check, username-uniqueness check
(`WHERE username = $1 AND id != $2`), strength check, then the combined
username+password update and the revoke-all. -/
def changeCredentials (db : Db)
    (userId currentPassword newUsername newPassword : String) :
    Db × Except String Unit :=
  match findUserById db userId with
  | none => (db, .error "User not found")
  | some user =>
    if bcryptCompare currentPassword user.password = false then
      (db, .error "Current password is incorrect")
    else if db.users.any (fun u => u.username == newUsername && u.id != userId) then
      (db, .error "Username already exists")
    else if (validatePasswordStrength newPassword).isValid = false then
      (db, .error "Password validation failed")
    else
      let db1 := updateUsersById db userId (fun u =>
        { u with username := newUsername,
                 password := bcryptHash newPassword,
                 must_change_password := false })
      (revokeAllRefreshTokens db1 userId, .ok ())

/-! ## UserService (unnamed part_011, the `db.transaction` version,
lines 394-828) -/

/-- The `role` field of `CreateUserData` (unnamed part_011 lines
770-777): the TypeScript interface restricts it to the union type
`'tenant_admin' | 'branch_admin'`, and the route-level Joi schema
(unnamed part_008 line 44, `Joi.string().valid('tenant_admin',
'branch_admin')`) enforces the same set at runtime. -/
inductive CreateUserRole where
  | tenant_admin
  | branch_admin
  deriving Repr, DecidableEq

/-- The role string the INSERT writes. -/
def CreateUserRole.toRoleString : CreateUserRole → String
  | .tenant_admin => "tenant_admin"
  | .branch_admin => "branch_admin"

/-- `CreateUserData` (unnamed part_011). -/
structure CreateUserData where
  username : String
  email : Option String
  password : String
  role : CreateUserRole
  tenantId : Option String
  branchId : Option String
  deriving Repr, DecidableEq

/-- The view of the created user returned by `UserService.createUser`. -/
structure CreatedUserView where
  id : String
  username : String
  email : Option String
  role : String
  tenantId : Option String
  branchId : Option String
  isActive : Bool
  mustChangePassword : Bool
  deriving Repr, DecidableEq

/-- `UserService.createUser` (unnamed part_011 lines 401-520), a
`db.transaction`: strength, username/email uniqueness, tenant-context
resolution (super admin must supply a tenant; a tenant admin's target is
forced to their own tenant and a differing supplied tenant id is
refused), tenant existence/activity, branch ownership, role-escalation
guard, then the INSERT.  `newId` stands for the database-generated row
id (the embedded `UserRow` carries no created/updated timestamps). -/
def createUser (db : Db) (userData : CreateUserData)
    (createdByRole : String) (createdByTenantId : Option String)
    (newId : String) :
    Db × Except String CreatedUserView :=
  if (validatePasswordStrength userData.password).isValid = false then
    (db, .error "Password validation failed")
  else if db.users.any (fun u => u.username == userData.username) then
    (db, .error "Username already exists")
  else if jsTruthy userData.email &&
          db.users.any (fun u => u.email == userData.email) then
    (db, .error "Email already exists")
  else
    let tenantStep : Except String (Option String) :=
      if createdByRole == "super_admin" then
        if jsTruthy userData.tenantId = false then
          .error "Tenant ID is required when creating users as super admin"
        else .ok userData.tenantId
      else if createdByRole == "tenant_admin" then
        if jsTruthy userData.tenantId && !(userData.tenantId == createdByTenantId)
        then .error "Cannot create users for other tenants"
        else .ok createdByTenantId
      else .error "Insufficient permissions to create users"
    match tenantStep with
    | .error e => (db, .error e)
    | .ok targetTenantId =>
      match db.tenants.find? (fun t =>
          some t.id == targetTenantId && t.deleted_at == none) with
      | none => (db, .error "Tenant not found or inactive")
      | some tenant =>
        if tenant.is_active = false then
          (db, .error "Cannot create users for inactive tenant")
        else if jsTruthy userData.branchId &&
                !(db.branches.any (fun b =>
                    some b.id == userData.branchId &&
                    some b.tenant_id == targetTenantId &&
                    b.is_active && b.deleted_at == none)) then
          (db, .error "Branch not found or does not belong to tenant")
        else if createdByRole == "tenant_admin" &&
                userData.role == CreateUserRole.tenant_admin then
          (db, .error "Tenant admins cannot create other tenant admins")
        else
          let newUser : UserRow :=
            { id := newId, username := userData.username,
              email := userData.email,
              password := bcryptHash userData.password,
              role := userData.role.toRoleString,
              tenant_id := targetTenantId, branch_id := userData.branchId,
              is_active := true, must_change_password := true,
              failed_login_attempts := 0, locked_until := none,
              last_login_at := none, deleted_at := none }
          ({ db with users := db.users ++ [newUser] },
           .ok { id := newId, username := newUser.username,
                 email := newUser.email, role := newUser.role,
                 tenantId := newUser.tenant_id, branchId := newUser.branch_id,
                 isActive := true, mustChangePassword := true })

/-- `UserService.resetUserPassword` (unnamed part_011 lines 769-828, the
`db.transaction` version with access control).  `tempBytes` stands for
`crypto.randomBytes(8)` inside `generateSecureToken(8)`.  Returns the
plaintext temporary password on success. -/
def resetUserPassword (db : Db) (userId resetBy resetByRole : String)
    (resetByTenantId : Option String) (tempBytes : List Nat) :
    Db × Except String String :=
  match db.users.find? (fun u => u.id == userId && u.deleted_at == none) with
  | none => (db, .error "User not found")
  | some userData =>
    let permission : Except String Unit :=
      if resetByRole == "super_admin" then .ok ()
      else if resetByRole == "tenant_admin" then
        if !(userData.tenant_id == resetByTenantId) then
          .error "Access denied: Cannot reset passwords for users from other tenants"
        else if userData.role == "tenant_admin" && userId != resetBy then
          .error "Access denied: Cannot reset other tenant admin passwords"
        else .ok ()
      else .error "Insufficient permissions to reset passwords"
    match permission with
    | .error e => (db, .error e)
    | .ok _ =>
      let tempPassword := generateSecureToken tempBytes
      let db1 := updateUsersById db userId (fun u =>
        { u with password := bcryptHash tempPassword,
                 must_change_password := true })
      (revokeAllRefreshTokens db1 userId, .ok tempPassword)

/-! ## TenantService.deleteTenant (unnamed part_012 lines 595-645) -/

/-- `TenantService.deleteTenant`: soft-deletes the tenant (setting
`deleted_at` and `is_active = false` together) and cascades the same
soft delete to the tenant's users and branches. -/
def deleteTenant (db : Db) (tenantId : String) (now : Nat) :
    Db × Except String Unit :=
  if db.tenants.any (fun t => t.id == tenantId) = false then
    (db, .error "Tenant not found")
  else
    let db1 := { db with tenants := db.tenants.map (fun t : TenantRow =>
      if t.id == tenantId then
        { t with deleted_at := some now, is_active := false } else t) }
    let db2 := { db1 with users := db1.users.map (fun u : UserRow =>
      if u.tenant_id == some tenantId then
        { u with deleted_at := some now, is_active := false } else u) }
    let db3 := { db2 with branches := db2.branches.map (fun b : BranchRow =>
      if b.tenant_id == tenantId then
        { b with deleted_at := some now, is_active := false } else b) }
    (db3, .ok ())

/-! ## POST /api/v1/auth/logout (src/server.ts lines 474-511) -/

/-- The JSON body the logout handler always returns. -/
structure LogoutResponse where
  success : Bool
  message : String
  deriving Repr, DecidableEq

/-- The logout route handler body (server.ts lines 474-511): when a
truthy `refreshToken` was supplied, `UPDATE refresh_tokens SET
is_revoked = true WHERE token = $1 AND user_id = $2` (the caller's id
from the authenticated request); any store error is swallowed; the
response is unconditionally `{success: true, message: 'Logout
successful'}`. -/
def logout (db : Db) (callerId : String) (refreshToken : Option String) :
    Db × LogoutResponse :=
  let db' :=
    if jsTruthy refreshToken then
      { db with refresh_tokens := db.refresh_tokens.map (fun r =>
          if r.token == refreshToken.getD "" && r.user_id == callerId then
            { r with is_revoked := true } else r) }
    else db
  (db', { success := true, message := "Logout successful" })

/-! ## Helper lemmas -/

/-- `find?` over a row-wise `UPDATE`: when the update `g` does not change
which rows the filter `p` selects, the first hit of the updated table is
the updated first hit of the original table. -/
theorem find?_map_of_filter_invariant {α : Type} (p : α → Bool) (g : α → α)
    (hp : ∀ a, p (g a) = p a) :
    ∀ (l : List α) (u : α), l.find? p = some u → (l.map g).find? p = some (g u) := by
  intro l
  induction l with
  | nil => intro u h; simp [List.find?] at h
  | cons a t ih =>
    intro u h
    by_cases hpa : p a = true
    · rw [List.find?_cons_of_pos _ hpa] at h
      injection h with h; subst h
      exact List.find?_cons_of_pos _ (by rw [hp]; exact hpa)
    · rw [List.find?_cons_of_neg _ hpa] at h
      rw [List.map_cons,
        List.find?_cons_of_neg _ (by rw [hp]; exact hpa)]
      exact ih u h

/-- Every token row of the revoke-all result that belongs to the revoked
principal is marked revoked. -/
theorem revokeAll_marks_owner_tokens (db : Db) (uid : String) :
    ∀ r ∈ (revokeAllRefreshTokens db uid).refresh_tokens,
      r.user_id = uid → r.is_revoked = true := by
  intro r hr hruid
  simp only [revokeAllRefreshTokens, List.mem_map] at hr
  obtain ⟨r0, _, hr0⟩ := hr
  by_cases h : r0.user_id == uid
  · rw [if_pos h] at hr0; rw [← hr0]
  · rw [if_neg h] at hr0
    subst hr0
    exact absurd (by exact beq_iff_eq.mpr hruid) h

/-! ## Claim theorems -/

/-- C1: for every authenticated principal whose role is not super_admin,
if the request carries a declared tenant id (resolved with precedence
path parameter, then body, then query) that differs from the principal's
own tenant id, `enforceTenantIsolation` denies the request with a 403
response (this middleware runs independently of `authorize`, so the
required-roles outcome cannot override it); a super_admin principal is
never denied by this check. -/
theorem tenantIsolation_denies_foreign_tenant :
    (∀ (r : TenantIsolationRequest) (u : AuthUser) (t : String),
       r.user = some u → u.role ≠ "super_admin" →
       requestTenantId r = some t → t ≠ "" → u.tenantId ≠ some t →
       ∃ msg, enforceTenantIsolation r = .respond 403 msg) ∧
    (∀ (r : TenantIsolationRequest) (u : AuthUser),
       r.user = some u → u.role = "super_admin" →
       enforceTenantIsolation r = .next) := by
  constructor
  · intro r u t hu hrole hrt ht hne
    simp only [enforceTenantIsolation, hu]
    rw [if_neg (by simpa using hrole)]
    by_cases htc : jsTruthy u.tenantId = false
    · rw [if_pos htc]; exact ⟨_, rfl⟩
    · rw [if_neg htc, hrt]
      have : (jsTruthy (some t) && !(u.tenantId == some t)) = true := by
        simp [jsTruthy, ht, hne]
      rw [if_pos this]; exact ⟨_, rfl⟩
  · intro r u hu hrole
    simp [enforceTenantIsolation, hu, hrole]

/-- Witness for C1: a tenant_admin of tenant T1 sending body tenant id T2
is denied with 403, and a super_admin with the same request passes. -/
theorem tenantIsolation_denies_foreign_tenant_witness :
    (∃ msg, enforceTenantIsolation
      { user := some { id := "u1", username := "a", email := none,
                       role := "tenant_admin", tenantId := some "T1",
                       branchId := none },
        paramsTenantId := none, bodyTenantId := some "T2",
        queryTenantId := none } = .respond 403 msg) ∧
    enforceTenantIsolation
      { user := some { id := "u0", username := "root", email := none,
                       role := "super_admin", tenantId := none,
                       branchId := none },
        paramsTenantId := none, bodyTenantId := some "T2",
        queryTenantId := none } = .next :=
  ⟨tenantIsolation_denies_foreign_tenant.1 _ _ "T2" rfl (by decide) rfl
      (by decide) (by decide),
   tenantIsolation_denies_foreign_tenant.2 _ _ rfl rfl⟩

/-- C4: the unknown-identifier path and the wrong-password path of
`login` return the same typed error, `invalidCredentials`
(`'Invalid credentials'` in the source); in particular a login against an
empty user table yields `invalidCredentials`, not `accountInactive` and
not an unhandled failure. -/
theorem login_error_indistinguishable :
    (∀ (cfg : SecurityConfig) (db : Db) (now : Nat) (ident pw : String),
       findUserByIdentifier db ident = none →
       (login cfg db now ident pw).2 = .error .invalidCredentials) ∧
    (∀ (cfg : SecurityConfig) (db : Db) (now : Nat) (ident pw : String)
       (u : UserRow),
       findUserByIdentifier db ident = some u → u.is_active = true →
       lockActive u.locked_until now = false →
       bcryptCompare pw u.password = false →
       (login cfg db now ident pw).2 = .error .invalidCredentials) ∧
    (∀ (cfg : SecurityConfig) (now : Nat) (ident pw : String),
       (login cfg { users := [], refresh_tokens := [], tenants := [],
                    branches := [] } now ident pw).2
         = .error .invalidCredentials) := by
  refine ⟨?_, ?_, ?_⟩
  · intro cfg db now ident pw hfind
    simp [login, hfind]
  · intro cfg db now ident pw u hfind hactive hlock hwrong
    simp [login, hfind, hactive, hlock, hwrong]
  · intro cfg now ident pw
    simp [login, findUserByIdentifier, List.find?]

/-- Witness for C4: on a one-user table, `"nope"` (absent) and `"alice"`
with a wrong password both yield `invalidCredentials`, and so does the
empty table. -/
theorem login_error_indistinguishable_witness :
    (login defaultSecurity
       { users := [{ id := "u1", username := "alice", email := none,
                     password := bcryptHash "Right1!Password",
                     role := "branch_admin", tenant_id := some "T1",
                     branch_id := some "B1", is_active := true,
                     must_change_password := false,
                     failed_login_attempts := 0, locked_until := none,
                     last_login_at := none, deleted_at := none }],
         refresh_tokens := [], tenants := [], branches := [] }
       1000 "nope" "whatever").2 = .error .invalidCredentials ∧
    (login defaultSecurity
       { users := [{ id := "u1", username := "alice", email := none,
                     password := bcryptHash "Right1!Password",
                     role := "branch_admin", tenant_id := some "T1",
                     branch_id := some "B1", is_active := true,
                     must_change_password := false,
                     failed_login_attempts := 0, locked_until := none,
                     last_login_at := none, deleted_at := none }],
         refresh_tokens := [], tenants := [], branches := [] }
       1000 "alice" "wrong").2 = .error .invalidCredentials ∧
    (login defaultSecurity
       { users := [], refresh_tokens := [], tenants := [], branches := [] }
       1000 "nope" "whatever").2 = .error .invalidCredentials :=
  ⟨login_error_indistinguishable.1 defaultSecurity _ 1000 "nope" "whatever"
     (by decide),
   login_error_indistinguishable.2.1 defaultSecurity _ 1000 "alice" "wrong"
     { id := "u1", username := "alice", email := none,
       password := bcryptHash "Right1!Password", role := "branch_admin",
       tenant_id := some "T1", branch_id := some "B1", is_active := true,
       must_change_password := false, failed_login_attempts := 0,
       locked_until := none, last_login_at := none, deleted_at := none }
     (by decide) rfl rfl (by decide),
   login_error_indistinguishable.2.2 defaultSecurity 1000 "nope" "whatever"⟩

/-- C2: when a wrong-password login brings the failed-attempt counter to
the configured maximum, the attempt is rejected with
`invalidCredentials`, `locked_until` is persisted as `now` plus the
lockout duration (`lockoutTime` minutes), and every subsequent login
call for that principal strictly before `locked_until` returns
`accountLocked` with the state unchanged — so the lock persists across
any number of retries in the window — whatever password it supplies. -/
theorem lockout_after_max_failed_attempts
    (cfg : SecurityConfig) (db : Db) (now : Nat) (username password : String)
    (u : UserRow)
    (hfind : findUserByIdentifier db username = some u)
    (hactive : u.is_active = true)
    (hnolock : lockActive u.locked_until now = false)
    (hwrong : bcryptCompare password u.password = false)
    (hmax : cfg.maxLoginAttempts ≤ u.failed_login_attempts + 1) :
    (login cfg db now username password).2 = .error .invalidCredentials ∧
    (∀ r ∈ (login cfg db now username password).1.users, r.id = u.id →
       r.failed_login_attempts = u.failed_login_attempts + 1 ∧
       r.locked_until = some (now + cfg.lockoutTime * 60 * 1000)) ∧
    (∀ (now' : Nat) (pw : String),
       now' < now + cfg.lockoutTime * 60 * 1000 →
       login cfg (login cfg db now username password).1 now' username pw
         = ((login cfg db now username password).1,
            .error .accountLocked)) := by
  have hlogin : login cfg db now username password =
      (updateUsersById db u.id (fun x =>
        { x with failed_login_attempts := u.failed_login_attempts + 1,
                 locked_until := some (now + cfg.lockoutTime * 60 * 1000) }),
       .error .invalidCredentials) := by
    simp [login, hfind, hactive, hnolock, hwrong, hmax]
  rw [hlogin]
  refine ⟨rfl, ?_, ?_⟩
  · intro r hr hid
    simp only [updateUsersById, List.mem_map] at hr
    obtain ⟨r0, _, hr0⟩ := hr
    by_cases hcase : (r0.id == u.id) = true
    · rw [if_pos hcase] at hr0
      subst hr0
      exact ⟨rfl, rfl⟩
    · rw [if_neg (by simpa using hcase)] at hr0
      subst hr0
      exact absurd (beq_iff_eq.mpr hid) (by simpa using hcase)
  · intro now' pw hlt
    have hfind' : findUserByIdentifier
        (updateUsersById db u.id (fun x =>
          { x with failed_login_attempts := u.failed_login_attempts + 1,
                   locked_until := some (now + cfg.lockoutTime * 60 * 1000) }))
        username =
        some { u with failed_login_attempts := u.failed_login_attempts + 1,
                      locked_until :=
                        some (now + cfg.lockoutTime * 60 * 1000) } := by
      have hmap := find?_map_of_filter_invariant
        (fun x : UserRow => x.username == username || x.email == some username)
        (fun x : UserRow => if x.id == u.id then
          { x with failed_login_attempts := u.failed_login_attempts + 1,
                   locked_until := some (now + cfg.lockoutTime * 60 * 1000) }
          else x)
        (by
          intro a
          by_cases h : (a.id == u.id) = true <;> simp [h])
        db.users u hfind
      simpa [findUserByIdentifier, updateUsersById] using hmap
    simp [login, hfind', hactive, lockActive, hlt]

/-- Witness for C2: the default configuration (max 5 attempts, 30-minute
lockout), a user with four recorded failures, a fifth wrong password at
t = 1000 ms, and a correct-password retry at t = 5000 ms. -/
theorem lockout_after_max_failed_attempts_witness :
    (login defaultSecurity
       { users := [{ id := "u1", username := "alice", email := none,
                     password := bcryptHash "Right1!Password",
                     role := "branch_admin", tenant_id := some "T1",
                     branch_id := some "B1", is_active := true,
                     must_change_password := false,
                     failed_login_attempts := 4, locked_until := none,
                     last_login_at := none, deleted_at := none }],
         refresh_tokens := [], tenants := [], branches := [] }
       1000 "alice" "wrong").2 = .error .invalidCredentials ∧
    (∀ r ∈ (login defaultSecurity
       { users := [{ id := "u1", username := "alice", email := none,
                     password := bcryptHash "Right1!Password",
                     role := "branch_admin", tenant_id := some "T1",
                     branch_id := some "B1", is_active := true,
                     must_change_password := false,
                     failed_login_attempts := 4, locked_until := none,
                     last_login_at := none, deleted_at := none }],
         refresh_tokens := [], tenants := [], branches := [] }
       1000 "alice" "wrong").1.users, r.id = "u1" →
       r.failed_login_attempts = 4 + 1 ∧
       r.locked_until = some (1000 + 30 * 60 * 1000)) ∧
    (∀ (now' : Nat) (pw : String), now' < 1000 + 30 * 60 * 1000 →
       login defaultSecurity (login defaultSecurity
         { users := [{ id := "u1", username := "alice", email := none,
                       password := bcryptHash "Right1!Password",
                       role := "branch_admin", tenant_id := some "T1",
                       branch_id := some "B1", is_active := true,
                       must_change_password := false,
                       failed_login_attempts := 4, locked_until := none,
                       last_login_at := none, deleted_at := none }],
           refresh_tokens := [], tenants := [], branches := [] }
         1000 "alice" "wrong").1 now' "alice" pw
         = ((login defaultSecurity
         { users := [{ id := "u1", username := "alice", email := none,
                       password := bcryptHash "Right1!Password",
                       role := "branch_admin", tenant_id := some "T1",
                       branch_id := some "B1", is_active := true,
                       must_change_password := false,
                       failed_login_attempts := 4, locked_until := none,
                       last_login_at := none, deleted_at := none }],
           refresh_tokens := [], tenants := [], branches := [] }
         1000 "alice" "wrong").1, .error .accountLocked)) :=
  lockout_after_max_failed_attempts defaultSecurity _ 1000 "alice" "wrong"
    { id := "u1", username := "alice", email := none,
      password := bcryptHash "Right1!Password", role := "branch_admin",
      tenant_id := some "T1", branch_id := some "B1", is_active := true,
      must_change_password := false, failed_login_attempts := 4,
      locked_until := none, last_login_at := none, deleted_at := none }
    (by decide) rfl rfl (by decide) (by decide)

/-- C3: `refreshAccessToken` returns a typed error — never a new access
token — whenever the token's server-side record is absent, marked
revoked, or past its stored expiry, or the owning principal is missing
or inactive, regardless of whether the token's signature would verify;
in particular it always fails after `revokeAllRefreshTokens` was run for
the owner of the token's record. -/
theorem refresh_fails_on_revoked_or_stale :
    (∀ (db : Db) (now : Nat) (tok : String),
       (match findRefreshTokenRow db tok with
        | none => True
        | some rec0 =>
          rec0.is_revoked = true ∨ rec0.expires_at < now ∨
          (match findUserById db rec0.user_id with
           | none => True
           | some owner => owner.is_active = false)) →
       ∃ e, refreshAccessToken db now tok = .error e) ∧
    (∀ (db : Db) (now : Nat) (tok : String) (rec0 : RefreshTokenRow),
       findRefreshTokenRow db tok = some rec0 →
       ∃ e, refreshAccessToken (revokeAllRefreshTokens db rec0.user_id)
              now tok = .error e) := by
  constructor
  · intro db now tok hbad
    by_cases hsig : verifyRefreshSignature tok = false
    · exact ⟨.invalidRefreshToken, by simp [refreshAccessToken, hsig]⟩
    · rw [Bool.not_eq_false] at hsig
      match hrec : findRefreshTokenRow db tok with
      | none =>
        exact ⟨.invalidRefreshToken, by simp [refreshAccessToken, hsig, hrec]⟩
      | some rec0 =>
        rw [hrec] at hbad
        rcases hbad with hrev | hexp | huser
        · exact ⟨.invalidRefreshToken,
            by simp [refreshAccessToken, hsig, hrec, hrev]⟩
        · by_cases hrev : rec0.is_revoked = true
          · exact ⟨.invalidRefreshToken,
              by simp [refreshAccessToken, hsig, hrec, hrev]⟩
          · exact ⟨.refreshTokenExpired,
              by simp [refreshAccessToken, hsig, hrec, hrev, hexp]⟩
        · by_cases hrev : rec0.is_revoked = true
          · exact ⟨.invalidRefreshToken,
              by simp [refreshAccessToken, hsig, hrec, hrev]⟩
          · by_cases hexp : rec0.expires_at < now
            · exact ⟨.refreshTokenExpired,
                by simp [refreshAccessToken, hsig, hrec, hrev, hexp]⟩
            · match huser' : findUserById db rec0.user_id with
              | none =>
                exact ⟨.userNotFoundOrInactive, by
                  simp [refreshAccessToken, hsig, hrec, hrev, hexp, huser']⟩
              | some owner =>
                rw [huser'] at huser
                exact ⟨.userNotFoundOrInactive, by
                  simp [refreshAccessToken, hsig, hrec, hrev, hexp, huser',
                    huser]⟩
  · intro db now tok rec0 hrec
    by_cases hsig : verifyRefreshSignature tok = false
    · exact ⟨.invalidRefreshToken, by simp [refreshAccessToken, hsig]⟩
    · rw [Bool.not_eq_false] at hsig
      have hrec' : findRefreshTokenRow (revokeAllRefreshTokens db rec0.user_id)
          tok = some { rec0 with is_revoked := true } := by
        have hmap := find?_map_of_filter_invariant
          (fun r : RefreshTokenRow => r.token == tok)
          (fun r : RefreshTokenRow => if r.user_id == rec0.user_id then
            { r with is_revoked := true } else r)
          (by intro a; by_cases h : (a.user_id == rec0.user_id) = true <;>
                simp [h])
          db.refresh_tokens rec0 hrec
        simpa [findRefreshTokenRow, revokeAllRefreshTokens] using hmap
      exact ⟨.invalidRefreshToken, by simp [refreshAccessToken, hsig, hrec']⟩

/-- Witness for C3: a signature-valid token whose record is revoked
fails, and so does a fresh record's token after a revoke-all of its
owner. -/
theorem refresh_fails_on_revoked_or_stale_witness :
    (∃ e, refreshAccessToken
      { users := [],
        refresh_tokens := [{ user_id := "u1", token := "refresh.u1",
                             expires_at := 99999, is_revoked := true }],
        tenants := [], branches := [] } 1000 "refresh.u1" = .error e) ∧
    (∃ e, refreshAccessToken
      (revokeAllRefreshTokens
        { users := [],
          refresh_tokens := [{ user_id := "u1", token := "refresh.u1",
                               expires_at := 99999, is_revoked := false }],
          tenants := [], branches := [] } "u1") 1000 "refresh.u1"
      = .error e) :=
  ⟨refresh_fails_on_revoked_or_stale.1 _ 1000 "refresh.u1" (Or.inl rfl),
   refresh_fails_on_revoked_or_stale.2 _ 1000 "refresh.u1"
     { user_id := "u1", token := "refresh.u1", expires_at := 99999,
       is_revoked := false } (by decide)⟩

/-- C5: a tenant_admin calling `createUser` with a (non-empty) tenant id
different from their own gets an error and the user table is left
unchanged — the transaction writes no row; and whenever a tenant_admin's
`createUser` call succeeds, the created user's role is neither
tenant_admin nor super_admin (the `CreateUserData` role type and the Joi
schema admit only tenant_admin/branch_admin, and the service refuses
tenant_admin for tenant_admin callers). -/
theorem tenantAdmin_createUser_guards :
    (∀ (db : Db) (data : CreateUserData) (ctid : Option String)
       (newId t : String),
       data.tenantId = some t → t ≠ "" → some t ≠ ctid →
       (∃ e, (createUser db data "tenant_admin" ctid newId).2 = .error e) ∧
       (createUser db data "tenant_admin" ctid newId).1 = db) ∧
    (∀ (db : Db) (data : CreateUserData) (ctid : Option String)
       (newId : String) (v : CreatedUserView),
       (createUser db data "tenant_admin" ctid newId).2 = .ok v →
       v.role ≠ "tenant_admin" ∧ v.role ≠ "super_admin") := by
  constructor
  · intro db data ctid newId t ht hne hne2
    have htruthy : jsTruthy data.tenantId = true := by
      simp [ht, jsTruthy, hne]
    have hbeq : (data.tenantId == ctid) = false := by
      rw [ht]
      exact beq_eq_false_iff_ne.mpr hne2
    have key : ∃ e, createUser db data "tenant_admin" ctid newId =
        (db, .error e) := by
      simp only [createUser]
      split
      · exact ⟨_, rfl⟩
      · split
        · exact ⟨_, rfl⟩
        · split
          · exact ⟨_, rfl⟩
          · simp [htruthy, hbeq]
    obtain ⟨e, he⟩ := key
    exact ⟨⟨e, by rw [he]⟩, by rw [he]⟩
  · intro db data ctid newId v hok
    have hrole : data.role = CreateUserRole.branch_admin ∧
        v.role = "branch_admin" := by
      simp only [createUser] at hok
      split at hok
      · simp at hok
      · split at hok
        · simp at hok
        · split at hok
          · simp at hok
          · split at hok
            · simp at hok
            · split at hok
              · simp at hok
              · split at hok
                · simp at hok
                · split at hok
                  · simp at hok
                  · split at hok
                    · simp at hok
                    · rename_i hguard
                      have hr : data.role = CreateUserRole.branch_admin := by
                        rcases hdr : data.role with _ | _
                        · rw [hdr] at hguard; simp at hguard
                        · rfl
                      injection hok with hok
                      refine ⟨hr, ?_⟩
                      rw [← hok]
                      simp [hr, CreateUserRole.toRoleString]
    rw [hrole.2]
    exact ⟨by decide, by decide⟩

/-- Witness for C5: tenant_admin of T1 supplying tenantId T2 is refused
with the database unchanged, and a successful tenant_admin creation
yields a branch_admin user. -/
theorem tenantAdmin_createUser_guards_witness :
    ((∃ e, (createUser
        { users := [], refresh_tokens := [],
          tenants := [{ id := "T1", name := "n", slug := "s",
                        is_active := true, subscription_status := "active",
                        deleted_at := none }],
          branches := [] }
        { username := "bob", email := none, password := "Longenough12!A",
          role := .branch_admin, tenantId := some "T2", branchId := none }
        "tenant_admin" (some "T1") "u9").2 = .error e) ∧
      (createUser
        { users := [], refresh_tokens := [],
          tenants := [{ id := "T1", name := "n", slug := "s",
                        is_active := true, subscription_status := "active",
                        deleted_at := none }],
          branches := [] }
        { username := "bob", email := none, password := "Longenough12!A",
          role := .branch_admin, tenantId := some "T2", branchId := none }
        "tenant_admin" (some "T1") "u9").1 =
        { users := [], refresh_tokens := [],
          tenants := [{ id := "T1", name := "n", slug := "s",
                        is_active := true, subscription_status := "active",
                        deleted_at := none }],
          branches := [] }) ∧
    ((createUser
        { users := [], refresh_tokens := [],
          tenants := [{ id := "T1", name := "n", slug := "s",
                        is_active := true, subscription_status := "active",
                        deleted_at := none }],
          branches := [] }
        { username := "bob", email := none, password := "Longenough12!A",
          role := .branch_admin, tenantId := none, branchId := none }
        "tenant_admin" (some "T1") "u9").2 =
        .ok { id := "u9", username := "bob", email := none,
              role := "branch_admin", tenantId := some "T1",
              branchId := none, isActive := true,
              mustChangePassword := true } →
      ("branch_admin" : String) ≠ "tenant_admin" ∧
      ("branch_admin" : String) ≠ "super_admin") :=
  ⟨tenantAdmin_createUser_guards.1 _ _ (some "T1") "u9" "T2" rfl (by decide)
     (by decide),
   fun h => tenantAdmin_createUser_guards.2 _ _ (some "T1") "u9" _ h⟩

/-- C6 counterexample: `AuthService.login` consults no tenant state, so a
non-super_admin principal whose tenant has subscription status
`"suspended"` (the only tenant in the database literal below) still
obtains a full successful login result with a token pair — refuting the
claim that such a principal never obtains a successful login result. -/
theorem login_succeeds_despite_suspended_tenant :
    ∃ res, (login defaultSecurity
      { users := [{ id := "u1", username := "alice", email := none,
                    password := bcryptHash "Right1!Password",
                    role := "tenant_admin", tenant_id := some "T1",
                    branch_id := none, is_active := true,
                    must_change_password := false,
                    failed_login_attempts := 0, locked_until := none,
                    last_login_at := none, deleted_at := none }],
        refresh_tokens := [],
        tenants := [{ id := "T1", name := "n", slug := "s",
                      is_active := true,
                      subscription_status := "suspended",
                      deleted_at := none }],
        branches := [] }
      1000 "alice" "Right1!Password").2 = .ok res ∧
      res.user.role = "tenant_admin" ∧ res.user.tenantId = some "T1" :=
  ⟨_, rfl, rfl, rfl⟩

/-- C6 amended: the tenant-status gate lives in the authenticate
middleware, not in `login`: for every principal whose role is not
super_admin, request authentication is rejected with 401 when the
principal's tenant is inactive or has subscription status suspended or
cancelled; and `deleteTenant` always marks the soft-deleted tenant
inactive, so a tenant soft-deleted through the API is rejected through
the inactivity check. (`AuthService.login` performs no tenant checks, so
a successful login result remains possible for such principals.) -/
theorem authenticate_rejects_inactive_or_suspended_tenant :
    (∀ (db : Db) (userId : String) (u : UserRow) (tid : String)
       (t : TenantRow),
       db.users.find? (fun x => x.id == userId && x.deleted_at == none)
         = some u →
       u.is_active = true → u.role ≠ "super_admin" →
       u.tenant_id = some tid → tid ≠ "" →
       findTenantById db tid = some t →
       (t.is_active = false ∨ t.subscription_status = "suspended" ∨
        t.subscription_status = "cancelled") →
       ∃ msg, authenticateUser db userId = .error (.respond 401 msg)) ∧
    (∀ (db db' : Db) (tenantId : String) (now : Nat),
       deleteTenant db tenantId now = (db', .ok ()) →
       ∀ t ∈ db'.tenants, t.id = tenantId →
         t.is_active = false ∧ t.deleted_at = some now) := by
  constructor
  · intro db userId u tid t hfind hactive hrole htid htide hten hbad
    simp only [authenticateUser, hfind]
    rw [if_neg (by simp [hactive])]
    rw [if_pos hrole]
    rw [if_neg (by simp [htid, jsTruthy, htide])]
    simp only [htid, hten]
    rcases hbad with hinact | hsub | hsub
    · rw [if_pos hinact]
      exact ⟨_, rfl⟩
    all_goals
      by_cases hinact : t.is_active = false
    · rw [if_pos hinact]; exact ⟨_, rfl⟩
    · rw [if_neg hinact, if_pos (by simp [hsub])]; exact ⟨_, rfl⟩
    · rw [if_pos hinact]; exact ⟨_, rfl⟩
    · rw [if_neg hinact, if_pos (by simp [hsub])]; exact ⟨_, rfl⟩
  · intro db db' tenantId now hdel t ht htid
    simp only [deleteTenant] at hdel
    split at hdel
    · simp at hdel
    · injection hdel with hdb _
      rw [← hdb] at ht
      simp only [List.mem_map] at ht
      obtain ⟨t0, _, ht0⟩ := ht
      by_cases hcase : (t0.id == tenantId) = true
      · rw [if_pos hcase] at ht0
        rw [← ht0]
        exact ⟨rfl, rfl⟩
      · rw [if_neg (by simpa using hcase)] at ht0
        subst ht0
        exact absurd (beq_iff_eq.mpr htid) hcase

/-- Witness for the amended C6: authenticating the tenant_admin of a
suspended tenant yields a 401, and a concrete `deleteTenant` run leaves
the tenant inactive. -/
theorem authenticate_rejects_inactive_or_suspended_tenant_witness :
    (∃ msg, authenticateUser
      { users := [{ id := "u1", username := "alice", email := none,
                    password := bcryptHash "Right1!Password",
                    role := "tenant_admin", tenant_id := some "T1",
                    branch_id := none, is_active := true,
                    must_change_password := false,
                    failed_login_attempts := 0, locked_until := none,
                    last_login_at := none, deleted_at := none }],
        refresh_tokens := [],
        tenants := [{ id := "T1", name := "n", slug := "s",
                      is_active := true,
                      subscription_status := "suspended",
                      deleted_at := none }],
        branches := [] } "u1" = .error (.respond 401 msg)) ∧
    (∀ t ∈ ((deleteTenant
        { users := [], refresh_tokens := [],
          tenants := [{ id := "T1", name := "n", slug := "s",
                        is_active := true,
                        subscription_status := "active",
                        deleted_at := none }],
          branches := [] } "T1" 777).1).tenants, t.id = "T1" →
      t.is_active = false ∧ t.deleted_at = some 777) :=
  ⟨authenticate_rejects_inactive_or_suspended_tenant.1 _ "u1"
     { id := "u1", username := "alice", email := none,
       password := bcryptHash "Right1!Password", role := "tenant_admin",
       tenant_id := some "T1", branch_id := none, is_active := true,
       must_change_password := false, failed_login_attempts := 0,
       locked_until := none, last_login_at := none, deleted_at := none }
     "T1"
     { id := "T1", name := "n", slug := "s", is_active := true,
       subscription_status := "suspended", deleted_at := none }
     rfl rfl (by decide) rfl (by decide) rfl (Or.inr (Or.inl rfl)),
   authenticate_rejects_inactive_or_suspended_tenant.2
     { users := [], refresh_tokens := [],
       tenants := [{ id := "T1", name := "n", slug := "s",
                     is_active := true, subscription_status := "active",
                     deleted_at := none }],
       branches := [] } _ "T1" 777 rfl⟩

/-- C7: every successful credential mutation — `changePassword`,
`changeCredentials`, or `resetUserPassword` — leaves every refresh-token
record owned by the mutated principal marked revoked, and (the
transactional part) an unsuccessful run of any of the three leaves the
database exactly as it was. -/
theorem credential_mutations_revoke_all_tokens :
    (∀ (db db' : Db) (uid cp np : String),
       changePassword db uid cp np = (db', .ok ()) →
       ∀ r ∈ db'.refresh_tokens, r.user_id = uid → r.is_revoked = true) ∧
    (∀ (db db' : Db) (uid cp nu np : String),
       changeCredentials db uid cp nu np = (db', .ok ()) →
       ∀ r ∈ db'.refresh_tokens, r.user_id = uid → r.is_revoked = true) ∧
    (∀ (db db' : Db) (uid rb role : String) (tid : Option String)
       (bytes : List Nat) (temp : String),
       resetUserPassword db uid rb role tid bytes = (db', .ok temp) →
       ∀ r ∈ db'.refresh_tokens, r.user_id = uid → r.is_revoked = true) ∧
    (∀ (db db' : Db) (uid cp np e : String),
       changePassword db uid cp np = (db', .error e) → db' = db) ∧
    (∀ (db db' : Db) (uid cp nu np e : String),
       changeCredentials db uid cp nu np = (db', .error e) → db' = db) ∧
    (∀ (db db' : Db) (uid rb role e : String) (tid : Option String)
       (bytes : List Nat),
       resetUserPassword db uid rb role tid bytes = (db', .error e) →
       db' = db) := by
  refine ⟨?_, ?_, ?_, ?_, ?_, ?_⟩
  · intro db db' uid cp np h r hr hruid
    simp only [changePassword] at h
    split at h
    · simp at h
    · split at h
      · simp at h
      · split at h
        · simp at h
        · injection h with hdb _
          subst hdb
          exact revokeAll_marks_owner_tokens _ uid r hr hruid
  · intro db db' uid cp nu np h r hr hruid
    simp only [changeCredentials] at h
    split at h
    · simp at h
    · split at h
      · simp at h
      · split at h
        · simp at h
        · split at h
          · simp at h
          · injection h with hdb _
            subst hdb
            exact revokeAll_marks_owner_tokens _ uid r hr hruid
  · intro db db' uid rb role tid bytes temp h r hr hruid
    simp only [resetUserPassword] at h
    split at h
    · simp at h
    · split at h
      · simp at h
      · injection h with hdb _
        subst hdb
        exact revokeAll_marks_owner_tokens _ uid r hr hruid
  · intro db db' uid cp np e h
    simp only [changePassword] at h
    split at h
    · injection h with hdb _; exact hdb.symm ▸ rfl
    · split at h
      · injection h with hdb _; exact hdb.symm ▸ rfl
      · split at h
        · injection h with hdb _; exact hdb.symm ▸ rfl
        · simp at h
  · intro db db' uid cp nu np e h
    simp only [changeCredentials] at h
    split at h
    · injection h with hdb _; exact hdb.symm ▸ rfl
    · split at h
      · injection h with hdb _; exact hdb.symm ▸ rfl
      · split at h
        · injection h with hdb _; exact hdb.symm ▸ rfl
        · split at h
          · injection h with hdb _; exact hdb.symm ▸ rfl
          · simp at h
  · intro db db' uid rb role e tid bytes h
    simp only [resetUserPassword] at h
    split at h
    · injection h with hdb _; exact hdb.symm ▸ rfl
    · split at h
      · injection h with hdb _; exact hdb.symm ▸ rfl
      · simp at h

/-- Witness for C7: a concrete successful `changePassword` revokes the
caller's stored refresh token, and a failing run (unknown user) leaves
the database unchanged. -/
theorem credential_mutations_revoke_all_tokens_witness :
    (∀ r ∈ ((changePassword
        { users := [{ id := "u1", username := "alice", email := none,
                      password := bcryptHash "OldPassword12!A",
                      role := "branch_admin", tenant_id := some "T1",
                      branch_id := some "B1", is_active := true,
                      must_change_password := false,
                      failed_login_attempts := 0, locked_until := none,
                      last_login_at := none, deleted_at := none }],
          refresh_tokens := [{ user_id := "u1", token := "refresh.u1",
                               expires_at := 99999, is_revoked := false }],
          tenants := [], branches := [] }
        "u1" "OldPassword12!A" "NewPassword12!A").1).refresh_tokens,
      r.user_id = "u1" → r.is_revoked = true) ∧
    (changePassword
      { users := [], refresh_tokens := [], tenants := [], branches := [] }
      "u1" "x" "y").1 =
      { users := [], refresh_tokens := [], tenants := [], branches := [] } :=
  ⟨credential_mutations_revoke_all_tokens.1
     { users := [{ id := "u1", username := "alice", email := none,
                   password := bcryptHash "OldPassword12!A",
                   role := "branch_admin", tenant_id := some "T1",
                   branch_id := some "B1", is_active := true,
                   must_change_password := false,
                   failed_login_attempts := 0, locked_until := none,
                   last_login_at := none, deleted_at := none }],
       refresh_tokens := [{ user_id := "u1", token := "refresh.u1",
                            expires_at := 99999, is_revoked := false }],
       tenants := [], branches := [] }
     _ "u1" "OldPassword12!A" "NewPassword12!A" rfl,
   credential_mutations_revoke_all_tokens.2.2.2.1
     { users := [], refresh_tokens := [], tenants := [], branches := [] }
     _ "u1" "x" "y" "User not found" rfl⟩

/-- C8: every successful login resets the stored failed-attempt counter
to 0, clears `locked_until`, and stamps `last_login_at` with the login
time, in the very database state in which the token pair is handed back
(`expiresIn` is the fixed 900-second access TTL). -/
theorem login_success_resets_lock_state
    (cfg : SecurityConfig) (db db' : Db) (now : Nat) (un pw : String)
    (res : LoginResult)
    (h : login cfg db now un pw = (db', .ok res)) :
    (∀ r ∈ db'.users, r.id = res.user.id →
       r.failed_login_attempts = 0 ∧ r.locked_until = none ∧
       r.last_login_at = some now) ∧
    res.expiresIn = 15 * 60 := by
  simp only [login] at h
  split at h
  · simp at h
  · rename_i user hfind
    split at h
    · simp at h
    · split at h
      · simp at h
      · split at h
        · simp at h
        · injection h with hdb hres
          injection hres with hres
          constructor
          · intro r hr hid
            rw [← hdb] at hr
            simp only [insertRefreshToken, updateUsersById,
              List.mem_map] at hr
            obtain ⟨r0, _, hr0⟩ := hr
            have hid' : r.id = user.id := by rw [hid, ← hres]
            by_cases hcase : (r0.id == user.id) = true
            · rw [if_pos hcase] at hr0
              subst hr0
              exact ⟨rfl, rfl, rfl⟩
            · rw [if_neg (by simpa using hcase)] at hr0
              subst hr0
              exact absurd (beq_iff_eq.mpr hid') hcase
          · rw [← hres]

/-- Witness for C8: a concrete successful login of a user with three
recorded failures and a stale lock timestamp in the past. -/
theorem login_success_resets_lock_state_witness :
    (∀ r ∈ ((login defaultSecurity
        { users := [{ id := "u1", username := "alice", email := none,
                      password := bcryptHash "Right1!Password",
                      role := "branch_admin", tenant_id := some "T1",
                      branch_id := some "B1", is_active := true,
                      must_change_password := false,
                      failed_login_attempts := 3, locked_until := some 500,
                      last_login_at := none, deleted_at := none }],
          refresh_tokens := [], tenants := [], branches := [] }
        1000 "alice" "Right1!Password").1).users,
       r.id = "u1" →
       r.failed_login_attempts = 0 ∧ r.locked_until = none ∧
       r.last_login_at = some 1000) ∧
    (15 * 60 : Nat) = 15 * 60 := by
  have h := login_success_resets_lock_state defaultSecurity
    { users := [{ id := "u1", username := "alice", email := none,
                  password := bcryptHash "Right1!Password",
                  role := "branch_admin", tenant_id := some "T1",
                  branch_id := some "B1", is_active := true,
                  must_change_password := false,
                  failed_login_attempts := 3, locked_until := some 500,
                  last_login_at := none, deleted_at := none }],
      refresh_tokens := [], tenants := [], branches := [] }
    _ 1000 "alice" "Right1!Password" _ rfl
  exact ⟨fun r hr hid => h.1 r hr (hid.trans rfl), rfl⟩

/-- C9: logout marks revoked exactly the token records whose value and
owner both match the caller (all other records pass through unchanged,
revoked or not), always returns the same success response — also for
already-revoked, nonexistent, or foreign tokens — and running the same
revocation twice leaves the store as after running it once. -/
theorem logout_ownership_and_idempotence :
    (∀ (db : Db) (callerId : String) (rt : Option String),
       (logout db callerId rt).2 =
         { success := true, message := "Logout successful" }) ∧
    (∀ (db : Db) (callerId t : String), t ≠ "" →
       (∀ r ∈ db.refresh_tokens, ¬(r.token = t ∧ r.user_id = callerId) →
          r ∈ ((logout db callerId (some t)).1).refresh_tokens) ∧
       (∀ r ∈ db.refresh_tokens, r.token = t → r.user_id = callerId →
          { r with is_revoked := true }
            ∈ ((logout db callerId (some t)).1).refresh_tokens) ∧
       (logout ((logout db callerId (some t)).1) callerId (some t)).1 =
         (logout db callerId (some t)).1) := by
  constructor
  · intro db c rt
    rfl
  · intro db c t ht
    have htruthy : jsTruthy (some t) = true := by simp [jsTruthy, ht]
    refine ⟨?_, ?_, ?_⟩
    · intro r hr hno
      simp only [logout, htruthy, if_true, Option.getD_some]
      refine List.mem_map.mpr ⟨r, hr, ?_⟩
      have hcond : (r.token == t && r.user_id == c) = false := by
        by_cases h1 : r.token = t
        · by_cases h2 : r.user_id = c
          · exact absurd ⟨h1, h2⟩ hno
          · simp [h2]
        · simp [h1]
      rw [if_neg (by simp [hcond])]
    · intro r hr h1 h2
      simp only [logout, htruthy, if_true, Option.getD_some]
      refine List.mem_map.mpr ⟨r, hr, ?_⟩
      rw [if_pos (by simp [h1, h2])]
    · simp only [logout, htruthy, if_true, Option.getD_some]
      congr 1
      rw [List.map_map]
      refine List.map_congr_left ?_
      intro a _
      by_cases hc : (a.token == t && a.user_id == c) = true
      · simp only [Function.comp_apply, if_pos hc]
      · simp only [Function.comp_apply, if_neg hc]

/-- Witness for C9: one matching, one foreign and one already-revoked
record; the response is the fixed success body, the matching record is
revoked, the others are untouched, and the operation is idempotent. -/
theorem logout_ownership_and_idempotence_witness :
    (logout
      { users := [],
        refresh_tokens := [{ user_id := "u1", token := "refresh.u1",
                             expires_at := 9, is_revoked := false },
                           { user_id := "u2", token := "refresh.u2",
                             expires_at := 9, is_revoked := false }],
        tenants := [], branches := [] } "u1" (some "refresh.u9")).2 =
      { success := true, message := "Logout successful" } ∧
    ({ user_id := "u2", token := "refresh.u2", expires_at := 9,
       is_revoked := false } : RefreshTokenRow) ∈
      ((logout
        { users := [],
          refresh_tokens := [{ user_id := "u1", token := "refresh.u1",
                               expires_at := 9, is_revoked := false },
                             { user_id := "u2", token := "refresh.u2",
                               expires_at := 9, is_revoked := false }],
          tenants := [], branches := [] } "u1"
        (some "refresh.u1")).1).refresh_tokens ∧
    ({ user_id := "u1", token := "refresh.u1", expires_at := 9,
       is_revoked := true } : RefreshTokenRow) ∈
      ((logout
        { users := [],
          refresh_tokens := [{ user_id := "u1", token := "refresh.u1",
                               expires_at := 9, is_revoked := false },
                             { user_id := "u2", token := "refresh.u2",
                               expires_at := 9, is_revoked := false }],
          tenants := [], branches := [] } "u1"
        (some "refresh.u1")).1).refresh_tokens ∧
    (logout ((logout
        { users := [],
          refresh_tokens := [{ user_id := "u1", token := "refresh.u1",
                               expires_at := 9, is_revoked := false },
                             { user_id := "u2", token := "refresh.u2",
                               expires_at := 9, is_revoked := false }],
          tenants := [], branches := [] } "u1" (some "refresh.u1")).1)
      "u1" (some "refresh.u1")).1 =
      (logout
        { users := [],
          refresh_tokens := [{ user_id := "u1", token := "refresh.u1",
                               expires_at := 9, is_revoked := false },
                             { user_id := "u2", token := "refresh.u2",
                               expires_at := 9, is_revoked := false }],
          tenants := [], branches := [] } "u1" (some "refresh.u1")).1 :=
  ⟨logout_ownership_and_idempotence.1 _ "u1" (some "refresh.u9"),
   (logout_ownership_and_idempotence.2 _ "u1" "refresh.u1"
      (by decide)).1
     { user_id := "u2", token := "refresh.u2", expires_at := 9,
       is_revoked := false } (by simp) (by decide),
   (logout_ownership_and_idempotence.2 _ "u1" "refresh.u1"
      (by decide)).2.1
     { user_id := "u1", token := "refresh.u1", expires_at := 9,
       is_revoked := false } (by simp) rfl rfl,
   (logout_ownership_and_idempotence.2 _ "u1" "refresh.u1"
      (by decide)).2.2⟩

/-- Every hex digit produced by `hexDigit` is one of the sixteen
lowercase hex characters. -/
theorem hexDigit_mem (n : Nat) : hexDigit n ∈ hexChars := by
  unfold hexDigit
  rcases Nat.lt_or_ge n hexChars.length with h | h
  · rw [List.getD_eq_getElem _ _ h]
    exact List.getElem_mem h
  · rw [List.getD_eq_default _ _ h]
    decide

/-- Every character of a hex encoding is a lowercase hex character. -/
theorem hexEncode_chars (l : List Nat) :
    ∀ c ∈ (hexEncode l).data, c ∈ hexChars := by
  intro c hc
  have hc' : c ∈ (l.map
      (fun b => [hexDigit (b / 16), hexDigit (b % 16)])).flatten := hc
  rw [List.mem_flatten] at hc'
  obtain ⟨cs, hcs, hc2⟩ := hc'
  rw [List.mem_map] at hcs
  obtain ⟨b, _, rfl⟩ := hcs
  simp only [List.mem_cons, List.not_mem_nil, or_false] at hc2
  rcases hc2 with rfl | rfl
  · exact hexDigit_mem _
  · exact hexDigit_mem _

/-- A hex encoding has two characters per byte. -/
theorem hexEncode_length (l : List Nat) :
    (hexEncode l).length = 2 * l.length := by
  induction l with
  | nil => rfl
  | cons a tl ih =>
    have hstep : (hexEncode (a :: tl)).length = 2 + (hexEncode tl).length := by
      simp [hexEncode, String.length]
      omega
    rw [hstep, ih, List.length_cons]
    omega

/-- Lowercase hex characters are neither `[A-Z]` nor in the password
policy's special-character class. -/
theorem hexChars_not_upper_not_special (c : Char) (hc : c ∈ hexChars) :
    isUpperAZ c = false ∧ isSpecialChar c = false := by
  have h : ∀ x ∈ hexChars, isUpperAZ x = false ∧ isSpecialChar x = false := by
    decide
  exact h c hc

/-- C10: the temporary password of `resetUserPassword` —
`generateSecureToken(8)`, the hex encoding of 8 random bytes — is a
16-character string of lowercase hexadecimal characters, hence contains
no `[A-Z]` character and no special character and always fails
`validatePasswordStrength`; it is nevertheless hashed and stored as the
user's password with `must_change_password` set to true (and returned in
the clear). -/
theorem temp_password_hex_fails_policy
    (bytes : List Nat) (h8 : bytes.length = 8) :
    (generateSecureToken bytes).length = 16 ∧
    (∀ c ∈ (generateSecureToken bytes).data,
       c ∈ hexChars ∧ isUpperAZ c = false ∧ isSpecialChar c = false) ∧
    (validatePasswordStrength (generateSecureToken bytes)).isValid
      = false ∧
    (∀ (db db' : Db) (uid rb role : String) (tid : Option String)
       (temp : String),
       resetUserPassword db uid rb role tid bytes = (db', .ok temp) →
       temp = generateSecureToken bytes ∧
       ∀ r ∈ db'.users, r.id = uid →
         r.password = bcryptHash (generateSecureToken bytes) ∧
         r.must_change_password = true) := by
  have hchars : ∀ c ∈ (generateSecureToken bytes).data, c ∈ hexChars :=
    hexEncode_chars bytes
  have hup : (generateSecureToken bytes).data.any isUpperAZ = false := by
    rw [List.any_eq_false]
    intro c hc
    have := (hexChars_not_upper_not_special c (hchars c hc)).1
    simp [this]
  refine ⟨?_, ?_, ?_, ?_⟩
  · rw [show generateSecureToken bytes = hexEncode bytes from rfl,
      hexEncode_length, h8]
  · intro c hc
    exact ⟨hchars c hc, hexChars_not_upper_not_special c (hchars c hc)⟩
  · simp only [validatePasswordStrength]
    rw [if_pos hup]
    simp
  · intro db db' uid rb role tid temp h
    simp only [resetUserPassword] at h
    split at h
    · simp at h
    · split at h
      · simp at h
      · injection h with hdb htemp
        injection htemp with htemp
        refine ⟨htemp.symm, ?_⟩
        intro r hr hid
        rw [← hdb] at hr
        simp only [revokeAllRefreshTokens, updateUsersById,
          List.mem_map] at hr
        obtain ⟨r0, _, hr0⟩ := hr
        by_cases hcase : (r0.id == uid) = true
        · rw [if_pos hcase] at hr0
          subst hr0
          exact ⟨rfl, rfl⟩
        · rw [if_neg (by simpa using hcase)] at hr0
          subst hr0
          exact absurd (beq_iff_eq.mpr hid) hcase

/-- Witness for C10: the concrete byte vector `[0,255,16,171,1,2,3,4]`
(hex `00ff10ab01020304`) and a concrete super_admin-driven reset. -/
theorem temp_password_hex_fails_policy_witness :
    (generateSecureToken [0, 255, 16, 171, 1, 2, 3, 4]).length = 16 ∧
    (∀ c ∈ (generateSecureToken [0, 255, 16, 171, 1, 2, 3, 4]).data,
       c ∈ hexChars ∧ isUpperAZ c = false ∧ isSpecialChar c = false) ∧
    (validatePasswordStrength
      (generateSecureToken [0, 255, 16, 171, 1, 2, 3, 4])).isValid
      = false ∧
    (∀ (db db' : Db) (uid rb role : String) (tid : Option String)
       (temp : String),
       resetUserPassword db uid rb role tid [0, 255, 16, 171, 1, 2, 3, 4]
         = (db', .ok temp) →
       temp = generateSecureToken [0, 255, 16, 171, 1, 2, 3, 4] ∧
       ∀ r ∈ db'.users, r.id = uid →
         r.password = bcryptHash
           (generateSecureToken [0, 255, 16, 171, 1, 2, 3, 4]) ∧
         r.must_change_password = true) :=
  temp_password_hex_fails_policy [0, 255, 16, 171, 1, 2, 3, 4] rfl

end KitchZero
